import Mathlib

/-!
Verification development for the provider-adapter layer and the frontend
token-handling code of the saas-boilerplate repository.

The frontend definitions (`getToken`, `setToken`, `removeToken`,
`isAuthenticated`, `logoutRun`) are shallow embeddings of
`frontend/src/lib/api.ts` and `frontend/src/lib/auth.ts`.  The browser's
`localStorage` is modelled as an association list from keys to strings, and
the `typeof window === 'undefined'` check is modelled by a `hasWindow` flag.

The backend adapter layer (mock identity adapter, storage adapters, provider
selection at startup) is described by the repository's documentation but its
Python source is not part of the corpus; those definitions are modelled from
the specification and are marked as such in their doc comments.
-/

namespace Saas

/-- Association-list lookup keyed by strings, modelling a key-value store. -/
def alistGet {α : Type} (l : List (String × α)) (k : String) : Option α :=
  (l.find? (fun p => p.1 == k)).map (fun p => p.2)

/-- Association-list update: any existing binding for the key is replaced
(last-write-wins). -/
def alistSet {α : Type} (l : List (String × α)) (k : String) (v : α) :
    List (String × α) :=
  (k, v) :: l.filter (fun p => p.1 != k)

/-- Association-list removal of every binding for the key. -/
def alistRemove {α : Type} (l : List (String × α)) (k : String) :
    List (String × α) :=
  l.filter (fun p => p.1 != k)

/-- Browser-side state seen by `frontend/src/lib/api.ts`: whether a `window`
object exists (client vs. server rendering) and the contents of
`localStorage`. -/
structure BrowserState where
  hasWindow : Bool
  localStorage : List (String × String)
  deriving DecidableEq, Repr

/-- Embedding of `getToken` from `frontend/src/lib/api.ts`: returns `null`
when `window` is undefined, otherwise `localStorage.getItem('access_token')`. -/
def getToken (st : BrowserState) : Option String :=
  if st.hasWindow then alistGet st.localStorage "access_token" else none

/-- Embedding of `setToken` from `frontend/src/lib/api.ts`: a no-op when
`window` is undefined, otherwise `localStorage.setItem('access_token', t)`. -/
def setToken (st : BrowserState) (token : String) : BrowserState :=
  if st.hasWindow then
    { st with localStorage := alistSet st.localStorage "access_token" token }
  else st

/-- Embedding of `removeToken` from `frontend/src/lib/api.ts`: a no-op when
`window` is undefined, otherwise `localStorage.removeItem('access_token')`. -/
def removeToken (st : BrowserState) : BrowserState :=
  if st.hasWindow then
    { st with localStorage := alistRemove st.localStorage "access_token" }
  else st

/-- JavaScript truthiness of a `string | null` value, as used by the double
negation in `isAuthenticated`: `null` and the empty string are falsy. -/
def jsTruthy : Option String → Bool
  | none => false
  | some v => !(v == "")

/-- Embedding of `isAuthenticated` from `frontend/src/lib/auth.ts`: returns
false when `window` is undefined, otherwise the truthiness of
`localStorage.getItem('access_token')`. -/
def isAuthenticated (st : BrowserState) : Bool :=
  if st.hasWindow then jsTruthy (alistGet st.localStorage "access_token")
  else false

/-- Embedding of `logout` from `frontend/src/lib/auth.ts`.  The server call
`api.auth.logout()` is an external effect whose outcome is passed in; the
`try`/`finally` block runs `removeToken` on both the success and the throw
path, and rethrows the server error if there was one. -/
def logoutRun (st : BrowserState) (apiOutcome : Except String Unit) :
    Except String Unit × BrowserState :=
  match apiOutcome with
  | Except.ok _ => (Except.ok (), removeToken st)
  | Except.error e => (Except.error e, removeToken st)

/-- Error taxonomy of the adapter layer.  Modelled from the spec: the backend
`src/adapters` package is not in the corpus; the spec lists exactly these
error kinds. -/
inductive AdapterError where
  | InvalidCredential
  | AuthenticationFailed
  | ProviderUnavailable
  | WriteFailed
  | NotFound
  | UnknownProvider
  deriving DecidableEq, Repr

/-- Result of a successful credential verification.  Modelled from the spec:
subject identifier, email, display name, active flag, elevated-privilege
flag, creation/update timestamps. -/
structure IdentityClaims where
  sub : String
  email : String
  name : String
  isActive : Bool
  isSuperuser : Bool
  createdAt : Nat
  updatedAt : Nat
  deriving DecidableEq, Repr

/-- A seed principal of the mock identity adapter.  Modelled from the spec:
the mock variant maintains a fixed in-memory set of seed principals. -/
structure SeedPrincipal where
  identifier : String
  secret : String
  claims : IdentityClaims
  deriving DecidableEq, Repr

/-- Claims of the documented seed principal of the mock identity adapter. -/
def testSeedClaims : IdentityClaims :=
  ⟨"1", "test@example.com", "Test User", true, false, 0, 0⟩

/-- The fixed seed set of the mock identity adapter.  Modelled from the spec:
documented literal identifier `test@example.com` with secret `password`. -/
def mockSeeds : List SeedPrincipal :=
  [⟨"test@example.com", "password", testSeedClaims⟩]

/-- The bearer token the mock adapter mints for a principal.  Modelled from
the spec: the mock adapter returns a static token tied to the principal. -/
def mockToken (identifier : String) : String :=
  "mock-token-" ++ identifier

/-- Mock `issueCredential` over an explicit seed set.  Modelled from the
spec: authenticates by a single combined identifier/secret match and fails
with `AuthenticationFailed`, the same error whether the identifier was
unknown or the secret wrong. -/
def issueCredentialWith (seeds : List SeedPrincipal)
    (identifier secret : String) :
    Except AdapterError (String × IdentityClaims) :=
  match seeds.find? (fun p => p.identifier == identifier && p.secret == secret) with
  | some p => Except.ok (mockToken p.identifier, p.claims)
  | none => Except.error AdapterError.AuthenticationFailed

/-- Mock `issueCredential` against the fixed seed set. -/
def issueCredential (identifier secret : String) :
    Except AdapterError (String × IdentityClaims) :=
  issueCredentialWith mockSeeds identifier secret

/-- Mock `verifyCredential` over an explicit seed set.  Modelled from the
spec: returns the claims of the principal whose minted token matches, and
fails with `InvalidCredential` otherwise. -/
def verifyCredentialWith (seeds : List SeedPrincipal) (token : String) :
    Except AdapterError IdentityClaims :=
  match seeds.find? (fun p => mockToken p.identifier == token) with
  | some p => Except.ok p.claims
  | none => Except.error AdapterError.InvalidCredential

/-- Mock `verifyCredential` against the fixed seed set. -/
def verifyCredential (token : String) : Except AdapterError IdentityClaims :=
  verifyCredentialWith mockSeeds token

/-- Whether an identifier/secret pair matches some seed principal. -/
def isValidPair (identifier secret : String) : Bool :=
  mockSeeds.any (fun p => p.identifier == identifier && p.secret == secret)

/-- Enumerated identity-provider kinds.  Modelled from the spec and the
backend docs: `AUTH_PROVIDER` is `mock` or `cognito`. -/
inductive AuthProviderKind where
  | mock
  | cognito
  deriving DecidableEq, Repr

/-- Enumerated storage-provider kinds.  Modelled from the spec and the
backend docs: `STORAGE_PROVIDER` is `local` or `s3`. -/
inductive StorageProviderKind where
  | localFs
  | s3
  deriving DecidableEq, Repr

/-- Parse the `AUTH_PROVIDER` selector string.  Modelled from the spec:
a fixed exhaustive table; anything else is unrecognized. -/
def parseAuthProvider : String → Option AuthProviderKind
  | "mock" => some AuthProviderKind.mock
  | "cognito" => some AuthProviderKind.cognito
  | _ => none

/-- Parse the `STORAGE_PROVIDER` selector string.  Modelled from the spec:
a fixed exhaustive table; anything else is unrecognized. -/
def parseStorageProvider : String → Option StorageProviderKind
  | "local" => some StorageProviderKind.localFs
  | "s3" => some StorageProviderKind.s3
  | _ => none

/-- The selector string that denotes an identity-provider kind. -/
def authKindSelector : AuthProviderKind → String
  | AuthProviderKind.mock => "mock"
  | AuthProviderKind.cognito => "cognito"

/-- The selector string that denotes a storage-provider kind. -/
def storageKindSelector : StorageProviderKind → String
  | StorageProviderKind.localFs => "local"
  | StorageProviderKind.s3 => "s3"

/-- Concrete identity adapters. -/
inductive AuthAdapter where
  | mockAdapter
  | cognitoAdapter
  deriving DecidableEq, Repr

/-- Concrete storage adapters. -/
inductive StorageAdapter where
  | localAdapter
  | s3Adapter
  deriving DecidableEq, Repr

/-- The fixed selection table for identity adapters.  Modelled from the
spec: total over the enumerated kinds. -/
def selectAuthAdapter : AuthProviderKind → AuthAdapter
  | AuthProviderKind.mock => AuthAdapter.mockAdapter
  | AuthProviderKind.cognito => AuthAdapter.cognitoAdapter

/-- The fixed selection table for storage adapters.  Modelled from the
spec: total over the enumerated kinds. -/
def selectStorageAdapter : StorageProviderKind → StorageAdapter
  | StorageProviderKind.localFs => StorageAdapter.localAdapter
  | StorageProviderKind.s3 => StorageAdapter.s3Adapter

/-- Process-wide configuration read once at startup. -/
structure Config where
  authProvider : String
  storageProvider : String
  deriving DecidableEq, Repr

/-- The adapter instances bound at startup, one per capability. -/
structure BoundAdapters where
  auth : AuthAdapter
  storage : StorageAdapter
  deriving DecidableEq, Repr

/-- Startup binding.  Modelled from the spec: read the selectors once, map
them through the fixed tables, construct exactly one instance per
capability; an unrecognized selector is the fatal `UnknownProvider` error
and no adapters are bound. -/
def startup (cfg : Config) : Except AdapterError BoundAdapters :=
  match parseAuthProvider cfg.authProvider,
        parseStorageProvider cfg.storageProvider with
  | some a, some s => Except.ok ⟨selectAuthAdapter a, selectStorageAdapter s⟩
  | _, _ => Except.error AdapterError.UnknownProvider

/-- Whether the process accepts requests: only after a successful startup. -/
def processAccepts (cfg : Config) : Bool :=
  match startup cfg with
  | Except.ok _ => true
  | Except.error _ => false

/-- Backing store of one storage adapter: logical keys to byte content. -/
abbrev StorageState := List (String × List Nat)

/-- Storage `put`.  Modelled from the spec: overwrites any previous content
under the same key; behavior is normalized to be identical for the
local-filesystem and the cloud-object-store variant. -/
def putOp (v : StorageAdapter) (st : StorageState) (key : String)
    (content : List Nat) : Except AdapterError Unit × StorageState :=
  match v with
  | StorageAdapter.localAdapter => (Except.ok (), alistSet st key content)
  | StorageAdapter.s3Adapter => (Except.ok (), alistSet st key content)

/-- Storage `get`.  Modelled from the spec: fails with `NotFound` when the
key was never written or was deleted; normalized across both variants. -/
def getOp (v : StorageAdapter) (st : StorageState) (key : String) :
    Except AdapterError (List Nat) :=
  match v with
  | StorageAdapter.localAdapter =>
    match alistGet st key with
    | some content => Except.ok content
    | none => Except.error AdapterError.NotFound
  | StorageAdapter.s3Adapter =>
    match alistGet st key with
    | some content => Except.ok content
    | none => Except.error AdapterError.NotFound

/-- Storage `delete`.  Modelled from the spec: fails with `NotFound` on an
absent key, removes the binding otherwise; normalized across both
variants. -/
def deleteOp (v : StorageAdapter) (st : StorageState) (key : String) :
    Except AdapterError Unit × StorageState :=
  match v with
  | StorageAdapter.localAdapter =>
    match alistGet st key with
    | some _ => (Except.ok (), alistRemove st key)
    | none => (Except.error AdapterError.NotFound, st)
  | StorageAdapter.s3Adapter =>
    match alistGet st key with
    | some _ => (Except.ok (), alistRemove st key)
    | none => (Except.error AdapterError.NotFound, st)

/-- The whole backing state visible to the adapters: the mock identity seed
set and the two storage backends. -/
structure SystemState where
  identitySeeds : List SeedPrincipal
  localStore : StorageState
  cloudStore : StorageState
  deriving DecidableEq, Repr

/-- Run credential verification through a bound identity adapter, returning
the result together with the (unchanged) backing state.  Modelled from the
spec: verification is pure; the cloud variant delegates to an external
service, here unreachable. -/
def verifyRun (a : AuthAdapter) (st : SystemState) (token : String) :
    Except AdapterError IdentityClaims × SystemState :=
  match a with
  | AuthAdapter.mockAdapter => (verifyCredentialWith st.identitySeeds token, st)
  | AuthAdapter.cognitoAdapter => (Except.error AdapterError.ProviderUnavailable, st)

/-- The backing store a bound storage adapter operates on. -/
def storeOf (a : StorageAdapter) (st : SystemState) : StorageState :=
  match a with
  | StorageAdapter.localAdapter => st.localStore
  | StorageAdapter.s3Adapter => st.cloudStore

/-- Replace the backing store a bound storage adapter operates on. -/
def withStore (a : StorageAdapter) (st : SystemState) (s : StorageState) :
    SystemState :=
  match a with
  | StorageAdapter.localAdapter => { st with localStore := s }
  | StorageAdapter.s3Adapter => { st with cloudStore := s }

/-- Requests the request layer dispatches through the bound adapters. -/
inductive Request where
  | login (identifier secret : String)
  | verify (token : String)
  | putObj (key : String) (content : List Nat)
  | getObj (key : String)
  | delObj (key : String)
  deriving DecidableEq, Repr

/-- Handle one request through the adapters bound at startup.  Modelled from
the spec: the request layer receives the bound adapters by dependency
injection and never re-selects or re-binds them. -/
def processRequest (b : BoundAdapters) (st : SystemState) :
    Request → BoundAdapters × SystemState
  | Request.login _ _ => (b, st)
  | Request.verify token => (b, (verifyRun b.auth st token).2)
  | Request.putObj key content =>
    (b, withStore b.storage st (putOp b.storage (storeOf b.storage st) key content).2)
  | Request.getObj _ => (b, st)
  | Request.delObj key =>
    (b, withStore b.storage st (deleteOp b.storage (storeOf b.storage st) key).2)

/-- Handle a sequence of requests, threading the bound adapters and the
backing state. -/
def runRequests (b : BoundAdapters) (st : SystemState) :
    List Request → BoundAdapters × SystemState
  | [] => (b, st)
  | r :: rs =>
    let next := processRequest b st r
    runRequests next.1 next.2 rs

theorem alistGet_set_self {α : Type} (l : List (String × α)) (k : String)
    (v : α) : alistGet (alistSet l k v) k = some v := by
  unfold alistGet alistSet
  rw [List.find?_cons_of_pos]
  · rfl
  · simp

theorem alistGet_remove_self {α : Type} (l : List (String × α)) (k : String) :
    alistGet (alistRemove l k) k = none := by
  unfold alistGet alistRemove
  have h : (l.filter (fun p => p.1 != k)).find? (fun p => p.1 == k) = none := by
    rw [List.find?_eq_none]
    intro x hx
    have hmem := List.of_mem_filter hx
    simpa using hmem
  rw [h]
  rfl

theorem find?_eq_none_of_any_eq_false {α : Type} (l : List α) (p : α → Bool)
    (h : l.any p = false) : l.find? p = none := by
  rw [List.find?_eq_none]
  intro x hx hpx
  have hany : l.any p = true := List.any_eq_true.mpr ⟨x, hx, hpx⟩
  rw [h] at hany
  exact absurd hany (by simp)

theorem countP_alistSet {α : Type} (l : List (String × α)) (k : String)
    (v : α) :
    List.countP (fun p => p.1 == k) (alistSet l k v) = 1 := by
  unfold alistSet
  rw [List.countP_cons]
  have h : List.countP (fun p => p.1 == k) (l.filter (fun p => p.1 != k)) = 0 := by
    rw [List.countP_eq_zero]
    intro a ha
    have hmem := List.of_mem_filter ha
    simpa using hmem
  rw [h]
  simp

theorem getOp_putOp_self (v : StorageAdapter) (st : StorageState)
    (key : String) (content : List Nat) :
    getOp v (putOp v st key content).2 key = Except.ok content := by
  cases v <;> simp [getOp, putOp, alistGet_set_self]

theorem getOp_eq_notfound (v : StorageAdapter) (st : StorageState)
    (key : String) (h : alistGet st key = none) :
    getOp v st key = Except.error AdapterError.NotFound := by
  cases v <;> simp [getOp, h]

theorem getOp_deleteOp_self (v : StorageAdapter) (st : StorageState)
    (key : String) :
    getOp v (deleteOp v st key).2 key = Except.error AdapterError.NotFound := by
  cases v <;>
    · unfold deleteOp
      cases hx : alistGet st key <;>
        simp [getOp, hx, alistGet_remove_self]

theorem processRequest_fst (b : BoundAdapters) (st : SystemState)
    (r : Request) : (processRequest b st r).1 = b := by
  cases r <;> rfl

theorem runRequests_fst (b : BoundAdapters) (reqs : List Request) :
    ∀ st : SystemState, (runRequests b st reqs).1 = b := by
  induction reqs with
  | nil => intro st; rfl
  | cons r rs ih =>
    intro st
    show (runRequests (processRequest b st r).1 (processRequest b st r).2 rs).1 = b
    rw [processRequest_fst]
    exact ih (processRequest b st r).2

theorem parseAuthProvider_eq_none (s : String)
    (h : s ∉ (["mock", "cognito"] : List String)) :
    parseAuthProvider s = none := by
  unfold parseAuthProvider
  split <;> simp_all

theorem parseStorageProvider_eq_none (s : String)
    (h : s ∉ (["local", "s3"] : List String)) :
    parseStorageProvider s = none := by
  unfold parseStorageProvider
  split <;> simp_all

theorem parseAuthProvider_eq_some_mock (s : String)
    (h : parseAuthProvider s = some AuthProviderKind.mock) : s = "mock" := by
  unfold parseAuthProvider at h
  split at h <;> simp_all

/-- C1: For every seed principal of the mock identity variant,
`issueCredential` on its identifier and secret succeeds with a token and
that principal's claims, `verifyCredential` on that token returns claims
whose subject identifier matches the seed principal, and for the documented
seed `test@example.com` the returned claims carry email `test@example.com`
and an active flag set to true. -/
theorem C1_mock_issue_verify_roundtrip (p : SeedPrincipal)
    (hp : p ∈ mockSeeds) :
    ∃ tok claims,
      issueCredential p.identifier p.secret = Except.ok (tok, p.claims) ∧
      verifyCredential tok = Except.ok claims ∧
      claims.sub = p.claims.sub ∧
      (p.identifier = "test@example.com" →
        claims.email = "test@example.com" ∧ claims.isActive = true) := by
  have hp1 : p = ⟨"test@example.com", "password", testSeedClaims⟩ := by
    simpa [mockSeeds] using hp
  subst hp1
  exact ⟨mockToken "test@example.com", testSeedClaims, rfl, rfl,
    rfl, fun _ => ⟨rfl, rfl⟩⟩

/-- Witness for C1 at the documented seed principal. -/
theorem C1_witness :
    ((⟨"test@example.com", "password", testSeedClaims⟩ : SeedPrincipal) ∈ mockSeeds) ∧
    (∃ tok claims,
      issueCredential "test@example.com" "password" =
        Except.ok (tok, testSeedClaims) ∧
      verifyCredential tok = Except.ok claims ∧
      claims.sub = testSeedClaims.sub ∧
      ("test@example.com" = "test@example.com" →
        claims.email = "test@example.com" ∧ claims.isActive = true)) := by
  refine ⟨by simp [mockSeeds], ?_⟩
  exact C1_mock_issue_verify_roundtrip
    ⟨"test@example.com", "password", testSeedClaims⟩ (by simp [mockSeeds])

/-- C2: A provider selector outside the enumerated set makes startup fail
with `UnknownProvider`, the process does not accept requests and no
adapters are bound; moreover in any environment whose identity selector is
not `mock`, a successful startup never binds the mock identity adapter. -/
theorem C2_unknown_provider_fatal (cfg : Config)
    (h : cfg.authProvider ∉ (["mock", "cognito"] : List String) ∨
         cfg.storageProvider ∉ (["local", "s3"] : List String)) :
    startup cfg = Except.error AdapterError.UnknownProvider ∧
    processAccepts cfg = false ∧
    (∀ b, ¬ (startup cfg = Except.ok b)) ∧
    (∀ cfg2 b, cfg2.authProvider ≠ "mock" → startup cfg2 = Except.ok b →
      b.auth ≠ AuthAdapter.mockAdapter) := by
  have hstart : startup cfg = Except.error AdapterError.UnknownProvider := by
    unfold startup
    rcases h with h | h
    · rw [parseAuthProvider_eq_none _ h]
    · rw [parseStorageProvider_eq_none _ h]
      cases parseAuthProvider cfg.authProvider <;> rfl
  refine ⟨hstart, ?_, ?_, ?_⟩
  · unfold processAccepts
    rw [hstart]
  · intro b hb
    rw [hstart] at hb
    exact Except.noConfusion hb
  · intro cfg2 b hne hok hmock
    unfold startup at hok
    cases ha : parseAuthProvider cfg2.authProvider with
    | none => rw [ha] at hok; cases hok
    | some a =>
      cases hs : parseStorageProvider cfg2.storageProvider with
      | none => rw [ha, hs] at hok; cases hok
      | some s =>
        rw [ha, hs] at hok
        cases hok
        cases a with
        | cognito => exact AuthAdapter.noConfusion hmock
        | mock => exact hne (parseAuthProvider_eq_some_mock _ ha)

/-- Witness for C2 at a concrete unrecognized identity selector. -/
theorem C2_witness :
    (("auth0" : String) ∉ (["mock", "cognito"] : List String)) ∧
    startup ⟨"auth0", "local"⟩ = Except.error AdapterError.UnknownProvider ∧
    processAccepts ⟨"auth0", "local"⟩ = false := by
  have h := C2_unknown_provider_fatal ⟨"auth0", "local"⟩ (Or.inl (by decide))
  exact ⟨by decide, h.1, h.2.1⟩

/-- C3: For every key and byte content, `put` followed by `get` on the same
storage adapter returns exactly the written content, for both the
local-filesystem and the cloud-object-store variant. -/
theorem C3_put_get_roundtrip (v : StorageAdapter) (st : StorageState)
    (key : String) (content : List Nat) :
    getOp v (putOp v st key content).2 key = Except.ok content :=
  getOp_putOp_self v st key content

/-- C4: `put(key, b1)` then `put(key, b2)` then `get(key)` returns exactly
`b2`, and after the second `put` the store holds exactly one binding for
the key: the second `put` overwrites rather than duplicating. -/
theorem C4_put_overwrites (v : StorageAdapter) (st : StorageState)
    (key : String) (b1 b2 : List Nat) :
    getOp v (putOp v (putOp v st key b1).2 key b2).2 key = Except.ok b2 ∧
    List.countP (fun p => p.1 == key)
      (putOp v (putOp v st key b1).2 key b2).2 = 1 := by
  constructor
  · exact getOp_putOp_self v (putOp v st key b1).2 key b2
  · cases v <;> simp [putOp, countP_alistSet]

/-- C5: On a key that is absent (never written or deleted), `get` fails with
`NotFound`, `delete` fails with `NotFound` and leaves the store unchanged;
after any `delete` of a key, `get` on that key fails with `NotFound`; and
both storage variants behave identically on these operations. -/
theorem C5_absent_key_notfound (v : StorageAdapter) (st : StorageState)
    (key : String) (h : alistGet st key = none) :
    getOp v st key = Except.error AdapterError.NotFound ∧
    (deleteOp v st key).1 = Except.error AdapterError.NotFound ∧
    (deleteOp v st key).2 = st ∧
    (∀ st2 : StorageState,
      getOp v (deleteOp v st2 key).2 key = Except.error AdapterError.NotFound) ∧
    (∀ v2 : StorageAdapter,
      getOp v2 st key = getOp v st key ∧ deleteOp v2 st key = deleteOp v st key) := by
  refine ⟨getOp_eq_notfound v st key h, ?_, ?_, ?_, ?_⟩
  · cases v <;> simp [deleteOp, h]
  · cases v <;> simp [deleteOp, h]
  · intro st2
    exact getOp_deleteOp_self v st2 key
  · intro v2
    cases v <;> cases v2 <;> exact ⟨rfl, rfl⟩

/-- Witness for C5 at a concrete store that lacks the key. -/
theorem C5_witness :
    alistGet ([("a", [1])] : StorageState) "b" = none ∧
    getOp StorageAdapter.localAdapter ([("a", [1])] : StorageState) "b" =
      Except.error AdapterError.NotFound ∧
    (deleteOp StorageAdapter.localAdapter ([("a", [1])] : StorageState) "b").1 =
      Except.error AdapterError.NotFound := by
  have h := C5_absent_key_notfound StorageAdapter.localAdapter
    ([("a", [1])] : StorageState) "b" (by decide)
  exact ⟨by decide, h.1, h.2.1⟩

/-- C6: For every invalid identifier/secret pair, `issueCredential` fails
with `AuthenticationFailed`, and the failure is the same value for any two
invalid pairs, so the error carries no information distinguishing an
unknown identifier from a wrong secret. -/
theorem C6_auth_failure_noninterference (i1 s1 i2 s2 : String)
    (h1 : isValidPair i1 s1 = false) (h2 : isValidPair i2 s2 = false) :
    issueCredential i1 s1 = Except.error AdapterError.AuthenticationFailed ∧
    issueCredential i1 s1 = issueCredential i2 s2 := by
  have e1 : issueCredential i1 s1 =
      Except.error AdapterError.AuthenticationFailed := by
    unfold issueCredential issueCredentialWith
    rw [find?_eq_none_of_any_eq_false _ _ h1]
  have e2 : issueCredential i2 s2 =
      Except.error AdapterError.AuthenticationFailed := by
    unfold issueCredential issueCredentialWith
    rw [find?_eq_none_of_any_eq_false _ _ h2]
  exact ⟨e1, e1.trans e2.symm⟩

/-- Witness for C6 with an unknown identifier in one run and a wrong secret
for a known identifier in the other. -/
theorem C6_witness :
    isValidPair "unknown@example.com" "password" = false ∧
    isValidPair "test@example.com" "wrongpass" = false ∧
    issueCredential "unknown@example.com" "password" =
      Except.error AdapterError.AuthenticationFailed ∧
    issueCredential "unknown@example.com" "password" =
      issueCredential "test@example.com" "wrongpass" := by
  have h := C6_auth_failure_noninterference "unknown@example.com" "password"
    "test@example.com" "wrongpass" (by decide) (by decide)
  exact ⟨by decide, by decide, h.1, h.2⟩

/-- C7: The startup-bound adapters are unique for a given configuration,
the selection tables are total over the enumerated provider kinds (every
kind's selector string parses back to that kind), and processing any
sequence of requests leaves the bound adapters unchanged: no re-selection
or re-binding at request time. -/
theorem C7_single_binding_per_process (cfg : Config) (b : BoundAdapters)
    (st : SystemState) (reqs : List Request)
    (h : startup cfg = Except.ok b) :
    (∀ b2, startup cfg = Except.ok b2 → b2 = b) ∧
    (runRequests b st reqs).1 = b ∧
    (∀ k, parseAuthProvider (authKindSelector k) = some k) ∧
    (∀ s, parseStorageProvider (storageKindSelector s) = some s) := by
  refine ⟨?_, runRequests_fst b reqs st, ?_, ?_⟩
  · intro b2 h2
    rw [h] at h2
    injection h2 with h3
    exact h3.symm
  · intro k
    cases k <;> rfl
  · intro s
    cases s <;> rfl

/-- Witness for C7 at the mock/local configuration and a one-request run. -/
theorem C7_witness :
    startup ⟨"mock", "local"⟩ =
      Except.ok ⟨AuthAdapter.mockAdapter, StorageAdapter.localAdapter⟩ ∧
    (runRequests ⟨AuthAdapter.mockAdapter, StorageAdapter.localAdapter⟩
      ⟨mockSeeds, [], []⟩ [Request.putObj "avatars/1.png" [0, 1]]).1 =
      ⟨AuthAdapter.mockAdapter, StorageAdapter.localAdapter⟩ := by
  have h := C7_single_binding_per_process ⟨"mock", "local"⟩
    ⟨AuthAdapter.mockAdapter, StorageAdapter.localAdapter⟩
    ⟨mockSeeds, [], []⟩ [Request.putObj "avatars/1.png" [0, 1]] rfl
  exact ⟨rfl, h.2.1⟩

/-- C8: Credential verification leaves all stored state unchanged, whatever
its result, for every adapter variant, both at the adapter boundary and
when dispatched through the request layer. -/
theorem C8_verify_is_pure (a : AuthAdapter) (b : BoundAdapters)
    (st : SystemState) (token : String) :
    (verifyRun a st token).2 = st ∧
    (processRequest b st (Request.verify token)).2 = st := by
  constructor
  · cases a <;> rfl
  · obtain ⟨auth, storage⟩ := b
    cases auth <;> rfl

/-- C9: `logout` removes the stored access token on every execution path:
whether the server-side logout call succeeds or throws, the `finally`
branch runs `removeToken`, so afterwards no `access_token` remains in
`localStorage`; the server outcome itself is propagated unchanged. -/
theorem C9_logout_always_removes_token (st : BrowserState)
    (o : Except String Unit) (h : st.hasWindow = true) :
    (logoutRun st o).1 = o ∧
    alistGet (logoutRun st o).2.localStorage "access_token" = none ∧
    isAuthenticated (logoutRun st o).2 = false := by
  have hstate : (logoutRun st o).2 = removeToken st := by
    cases o with
    | ok u => rfl
    | error e => rfl
  have hget : alistGet (removeToken st).localStorage "access_token" = none := by
    simp [removeToken, h, alistGet_remove_self]
  refine ⟨?_, ?_, ?_⟩
  · cases o with
    | ok u => cases u; rfl
    | error e => rfl
  · rw [hstate]
    exact hget
  · rw [hstate]
    simp [isAuthenticated, removeToken, h, alistGet_remove_self, jsTruthy]

/-- Witness for C9 with a stored token and a throwing server call. -/
theorem C9_witness :
    (logoutRun ⟨true, [("access_token", "tok")]⟩
      (Except.error "network down")).1 = Except.error "network down" ∧
    alistGet (logoutRun ⟨true, [("access_token", "tok")]⟩
      (Except.error "network down")).2.localStorage "access_token" = none := by
  have h := C9_logout_always_removes_token ⟨true, [("access_token", "tok")]⟩
    (Except.error "network down") rfl
  exact ⟨h.1, h.2.1⟩

/-- C10 counterexample: storing the empty string as the token gives a state
in which a token is stored (`getToken` returns a value) yet
`isAuthenticated` returns false, because the JavaScript double negation
treats the empty string as falsy.  This refutes the claim that
`isAuthenticated()` returns true exactly when a token is stored. -/
theorem C10_counterexample :
    ¬ ((isAuthenticated (setToken ⟨true, []⟩ "") = true) ↔
       (getToken (setToken ⟨true, []⟩ "")).isSome = true) := by
  decide

/-- C10 (amended): In a browser environment, `setToken t` then `getToken`
returns `t` and `removeToken` then `getToken` returns none;
`isAuthenticated` returns true exactly when the environment has a window
and a nonempty token is stored; without a window, `setToken` and
`removeToken` are no-ops, `getToken` returns none and `isAuthenticated`
returns false. -/
theorem C10_token_storage_laws (st : BrowserState) (t : String) :
    (st.hasWindow = true → getToken (setToken st t) = some t) ∧
    (st.hasWindow = true → getToken (removeToken st) = none) ∧
    ((isAuthenticated st = true) ↔
      (st.hasWindow = true ∧ ∃ u, getToken st = some u ∧ u ≠ "")) ∧
    (st.hasWindow = false →
      setToken st t = st ∧ removeToken st = st ∧
      getToken st = none ∧ isAuthenticated st = false) := by
  refine ⟨?_, ?_, ?_, ?_⟩
  · intro h
    simp [getToken, setToken, h, alistGet_set_self]
  · intro h
    simp [getToken, removeToken, h, alistGet_remove_self]
  · cases hw : st.hasWindow with
    | false => simp [isAuthenticated, hw]
    | true =>
      cases hg : alistGet st.localStorage "access_token" with
      | none => simp [isAuthenticated, getToken, jsTruthy, hw, hg]
      | some v => simp [isAuthenticated, getToken, jsTruthy, hw, hg]
  · intro h
    simp [setToken, removeToken, getToken, isAuthenticated, h]

/-- Witness for C10 in a browser state and in a server-side state. -/
theorem C10_witness :
    getToken (setToken ⟨true, []⟩ "tok") = some "tok" ∧
    getToken (removeToken ⟨true, [("access_token", "tok")]⟩) = none ∧
    ((isAuthenticated ⟨true, [("access_token", "tok")]⟩ = true) ↔
      ((⟨true, [("access_token", "tok")]⟩ : BrowserState).hasWindow = true ∧
       ∃ u, getToken ⟨true, [("access_token", "tok")]⟩ = some u ∧ u ≠ "")) ∧
    setToken ⟨false, []⟩ "tok" = ⟨false, []⟩ := by
  refine ⟨(C10_token_storage_laws ⟨true, []⟩ "tok").1 rfl,
    (C10_token_storage_laws ⟨true, [("access_token", "tok")]⟩ "tok").2.1 rfl,
    (C10_token_storage_laws ⟨true, [("access_token", "tok")]⟩ "tok").2.2.1,
    ((C10_token_storage_laws ⟨false, []⟩ "tok").2.2.2 rfl).1⟩

end Saas
